import Mathlib

/-!
Verification development for drivers/scsi/scsi_ioctl.c: a shallow embedding
of the SCSI ioctl dispatch layer (command dispatcher, buffer marshaller,
command executor with sense interpretation, and the error/recovery gate),
together with theorems settling the specification's claims about it.

Modelling conventions:
* Machine integers become `Nat` (unsigned) or `Int` (the C `int` result
  codes), with explicit `% 256` & friends where the source truncates.
* User memory is passed in as values; each fallible copy primitive
  (`copy_from_user`, `copy_to_user`, `kmalloc`) gets a Bool flag telling
  whether it succeeded, so every error branch of the source is still
  reachable in the model.
* The external synchronous execution primitive `scsi_execute_req` is a
  parameter: its integer result, the sense header it filled in, and the
  bytes it deposited in the data buffer (device-to-host direction).
-/

/-! ## Constants from the kernel headers used by scsi_ioctl.c -/

/-- DRIVER_SENSE bit in the driver byte of a SCSI result word. -/
def DRIVER_SENSE : Nat := 0x08

/-- Sense key ILLEGAL REQUEST. -/
def ILLEGAL_REQUEST : Nat := 0x05

/-- Sense key NOT READY. -/
def NOT_READY : Nat := 0x02

/-- Sense key UNIT ATTENTION. -/
def UNIT_ATTENTION : Nat := 0x06

/-- Opcode PREVENT/ALLOW MEDIUM REMOVAL. -/
def ALLOW_MEDIUM_REMOVAL : Nat := 0x1e

/-- Opcode START STOP UNIT. -/
def START_STOP : Nat := 0x1b

/-- Opcode SECURITY PROTOCOL IN. -/
def SECURITY_PROTOCOL_IN : Nat := 0xa2

/-- Opcode SECURITY PROTOCOL OUT. -/
def SECURITY_PROTOCOL_OUT : Nat := 0xb5

/-- UFS security protocol identifier (CDB byte 1 of a security transfer). -/
def SECU_PROT_UFS : Nat := 0xec

/-- Protocol-specific field for certificate data, an unsigned short. -/
def SECU_PROT_SPEC_CERT_DATA : Nat := 0x0001

/-- state argument of scsi_set_medium_removal meaning "prevent removal". -/
def SCSI_REMOVAL_PREVENT : Nat := 1

/-- state argument of scsi_set_medium_removal meaning "allow removal". -/
def SCSI_REMOVAL_ALLOW : Nat := 0

/-- MAX_BUFFLEN from scsi_ioctl.c: 32 * 512 bytes. -/
def MAX_BUFFLEN : Nat := 32 * 512

/-- MAX_COMMAND_SIZE: capacity of the on-stack CDB array. -/
def MAX_COMMAND_SIZE : Nat := 16

/-- errno: bad address. -/
def EFAULT : Int := 14

/-- errno: invalid argument. -/
def EINVAL : Int := 22

/-- errno: permission denied. -/
def EACCES : Int := 13

/-- errno: no such device. -/
def ENODEV : Int := 19

/-- errno: try again. -/
def EAGAIN : Int := 11

/-- DMA direction host-to-device (DMA_TO_DEVICE). -/
def DMA_TO_DEVICE : Nat := 1

/-- DMA direction device-to-host (DMA_FROM_DEVICE). -/
def DMA_FROM_DEVICE : Nat := 2

/-! Ioctl command codes.  The values come from the kernel headers
(include/scsi/scsi_ioctl.h, scsi/sg.h) that are outside src/; only their
distinctness matters to the dispatcher. -/

def SCSI_IOCTL_SEND_COMMAND : Nat := 1

def SCSI_IOCTL_TEST_UNIT_READY : Nat := 2

def SCSI_IOCTL_BENCHMARK_COMMAND : Nat := 3

def SCSI_IOCTL_SYNC : Nat := 4

def SCSI_IOCTL_START_UNIT : Nat := 5

def SCSI_IOCTL_STOP_UNIT : Nat := 6

def SCSI_IOCTL_SECURITY_PROTOCOL_IN : Nat := 7

def SCSI_IOCTL_SECURITY_PROTOCOL_OUT : Nat := 8

def SCSI_IOCTL_DOORLOCK : Nat := 0x5380

def SCSI_IOCTL_DOORUNLOCK : Nat := 0x5381

def SCSI_IOCTL_GET_IDLUN : Nat := 0x5382

def SCSI_IOCTL_PROBE_HOST : Nat := 0x5385

def SCSI_IOCTL_GET_BUS_NUMBER : Nat := 0x5386

def SCSI_IOCTL_GET_PCI : Nat := 0x5387

def SG_SCSI_RESET : Nat := 0x2284

/-- Driver-name byte string "ufshcd" compared against by the SG_SCSI_RESET
carve-out in scsi_ioctl. -/
def ufshcdName : List Nat := [0x75, 0x66, 0x73, 0x68, 0x63, 0x64]

/-! ## Data model -/

/-- scsi_sense_hdr: the decoded sense data (key, additional sense code and
qualifier) filled in by the execution primitive. -/
structure SenseHdr where
  sense_key : Nat
  asc : Nat
  ascq : Nat
deriving Repr, DecidableEq

/-- Outcome of one call to the external primitive scsi_execute_req: the
integer result word and the sense header it produced, with `senseValid`
standing for scsi_sense_valid(&sshdr). -/
structure ExecOutcome where
  result : Int
  senseValid : Bool
  sshdr : SenseHdr
deriving Repr, DecidableEq

/-- Fields of struct Scsi_Host / scsi_host_template consumed by this file:
host number, unique id, the template name sht->name (a byte string), the
optional device-specific ioctl handler hostt->ioctl (modelled as a function
from the command code to its result), and the wlun_clr_uac flag. -/
structure HostState where
  host_no : Nat
  unique_id : Nat
  shtName : List Nat
  handler : Option (Nat → Int)
  wlun_clr_uac : Bool

/-- Fields of struct scsi_device consumed by this file. -/
structure Sdev where
  id : Nat
  lun : Nat
  channel : Nat
  removable : Bool
  lockable : Bool
  locked : Bool
  changed : Bool
  host : HostState

/-- driver_byte(result) = (result >> 24) & 0xff, with C's arithmetic right
shift on int rendered as floor division and & 0xff as a nonnegative
remainder. -/
def driver_byte (result : Int) : Int := (Int.fdiv result (2 ^ 24)).emod 256

/-- The guard (driver_byte(result) & DRIVER_SENSE) && scsi_sense_valid(&sshdr)
that gates all sense interpretation.  DRIVER_SENSE is the 0x08 bit, so the
bitwise test is bit 3 of the (nonnegative) driver byte. -/
def senseShown (exec : ExecOutcome) : Bool :=
  decide ((driver_byte exec.result / 8) % 2 = 1) && exec.senseValid

/-! ## Command executor and sense interpreter: ioctl_internal_command -/

/-- Embedding of ioctl_internal_command.  It submits the CDB through
scsi_execute_req (outcome given by `exec`; the timeout/retry arguments do
not affect the model) and then interprets sense data, possibly mutating the
device flags and downgrading the result.  `cmd0` is cmd[0], the opcode.
The C switch falls through: NOT_READY on a non-removable device falls into
the UNIT_ATTENTION arm (whose removable test is then false) and from there
into the default arm, which only logs; both collapse to an unchanged
device and result here. -/
def ioctl_internal_command (sdev : Sdev) (cmd0 : Nat) (exec : ExecOutcome) :
    Sdev × Int :=
  let result := exec.result
  if senseShown exec then
    if exec.sshdr.sense_key = ILLEGAL_REQUEST then
      if cmd0 = ALLOW_MEDIUM_REMOVAL then ({ sdev with lockable := false }, result)
      else (sdev, result)
    else if exec.sshdr.sense_key = NOT_READY then
      (sdev, result)
    else if exec.sshdr.sense_key = UNIT_ATTENTION then
      if sdev.removable then ({ sdev with changed := true }, 0)
      else (sdev, result)
    else (sdev, result)
  else (sdev, result)

/-! ## Medium removal: scsi_set_medium_removal -/

/-- Observable outcome of scsi_set_medium_removal: the device afterwards,
the returned result, and the six CDB bytes handed to ioctl_internal_command
when a command was actually issued (`none` when the early return fired). -/
structure MedRemovalOut where
  dev : Sdev
  ret : Int
  issued : Option (List Nat)

/-- Embedding of scsi_set_medium_removal.  Non-removable or non-lockable
devices return 0 at once without building or issuing a CDB; otherwise the
PREVENT/ALLOW MEDIUM REMOVAL CDB is issued and, on result 0, `locked` is
set to (state == SCSI_REMOVAL_PREVENT). -/
def scsi_set_medium_removal (sdev : Sdev) (state : Nat) (exec : ExecOutcome) :
    MedRemovalOut :=
  if !sdev.removable || !sdev.lockable then
    { dev := sdev, ret := 0, issued := none }
  else
    let scsi_cmd : List Nat := [ALLOW_MEDIUM_REMOVAL, 0, 0, 0, state, 0]
    let r := ioctl_internal_command sdev ALLOW_MEDIUM_REMOVAL exec
    if r.2 = 0 then
      { dev := { r.1 with locked := decide (state = SCSI_REMOVAL_PREVENT) },
        ret := r.2, issued := some scsi_cmd }
    else
      { dev := r.1, ret := r.2, issued := some scsi_cmd }

/-! ## Trusted buffer marshaller: ioctl_secu_prot_command -/

/-- The user-supplied Scsi_Ioctl_Command argument: the two leading length
fields (unsigned ints in the source) and the data region that follows them
in user memory. -/
structure UserArg where
  inlen : Nat
  outlen : Nat
  data : List Nat

/-- Success flags of the fallible memory primitives used by
ioctl_secu_prot_command, together with the outcome of the execution
primitive.  `execBuf i` is byte i of the kernel data buffer after
scsi_execute_req returns (device-to-host contents). -/
structure SecuExt where
  kmallocOk : Bool
  argCopyOk : Bool
  dataCopyInOk : Bool
  dataCopyOutOk : Bool
  exec : ExecOutcome
  execBuf : Nat → Nat

/-- Observable outcome of ioctl_secu_prot_command: the returned result, the
size of the kzalloc'd data buffer if one was allocated, the (cdb, dma
direction, bufflen) triple handed to scsi_execute_req if execution was
reached, and the bytes copied back to the user data region (IN direction)
if the copy-out was reached. -/
structure SecuProtOut where
  result : Int
  alloc : Option Nat
  executed : Option (List Nat × Nat × Nat)
  userOut : Option (List Nat)

/-- Embedding of ioctl_secu_prot_command.  The header struct is kmalloc'd
and copied in from user memory; the direction-specific length (inlen for
SECURITY_PROTOCOL_IN, outlen for OUT) is validated against MAX_BUFFLEN
before the data buffer is kzalloc'd (the length fields are unsigned, so the
C test `bufflen <= 0` is `bufflen == 0`); OUT copies the payload in before
execution, IN copies the buffer out after execution without consulting the
execution result first.  Every failing primitive yields -EFAULT. -/
def ioctl_secu_prot_command (sdev : Sdev) (cmd : List Nat) (prot_in_out : Nat)
    (arg : UserArg) (ext : SecuExt) : SecuProtOut :=
  if !ext.kmallocOk then
    { result := -EFAULT, alloc := none, executed := none, userOut := none }
  else if !ext.argCopyOk then
    { result := -EFAULT, alloc := none, executed := none, userOut := none }
  else if prot_in_out = SCSI_IOCTL_SECURITY_PROTOCOL_IN then
    let bufflen := arg.inlen
    if bufflen = 0 || bufflen > MAX_BUFFLEN then
      { result := -EFAULT, alloc := none, executed := none, userOut := none }
    else
      let buf := (List.range bufflen).map ext.execBuf
      if !ext.dataCopyOutOk then
        { result := -EFAULT, alloc := some bufflen,
          executed := some (cmd, DMA_FROM_DEVICE, bufflen), userOut := none }
      else
        { result := ext.exec.result, alloc := some bufflen,
          executed := some (cmd, DMA_FROM_DEVICE, bufflen),
          userOut := some (buf.take arg.inlen) }
  else if prot_in_out = SCSI_IOCTL_SECURITY_PROTOCOL_OUT then
    let bufflen := arg.outlen
    if bufflen = 0 || bufflen > MAX_BUFFLEN then
      { result := -EFAULT, alloc := none, executed := none, userOut := none }
    else if !ext.dataCopyInOk then
      { result := -EFAULT, alloc := some bufflen, executed := none, userOut := none }
    else
      { result := ext.exec.result, alloc := some bufflen,
        executed := some (cmd, DMA_TO_DEVICE, bufflen), userOut := none }
  else
    { result := -EFAULT, alloc := none, executed := none, userOut := none }

/-! ## Command dispatcher: scsi_ioctl -/

/-- C strncmp over byte strings rendered as lists; running off the end of a
list stands for reaching the NUL terminator. -/
def strncmp (a b : List Nat) (n : Nat) : Int :=
  match n with
  | 0 => 0
  | Nat.succ n =>
    let c1 := a.headD 0
    let c2 := b.headD 0
    if c1 ≠ c2 then (c1 : Int) - (c2 : Int)
    else if c1 = 0 then 0
    else strncmp a.tail b.tail n

/-- Results of the external calls and memory primitives reachable from
scsi_ioctl: access_ok / put_user success for the fixed-size queries, the
results of ioctl_probe, sg_scsi_ioctl, scsi_test_unit_ready,
scsi_ioctl_get_pci and scsi_ioctl_reset (all leaf helpers over user memory
or external subsystems), the capability checks, the scsi_execute_req
outcome for internal commands, and the externals of the security-protocol
path. -/
structure IoctlExt where
  accessOk : Bool
  putUserOk : Bool
  probeResult : Int
  capSysAdmin : Bool
  capSysRawio : Bool
  sgIoResult : Int
  testUnitReadyResult : Int
  getPciResult : Int
  resetResult : Int
  exec : ExecOutcome
  secu : SecuExt

/-- Observable outcome of scsi_ioctl: the returned result, the device
afterwards, and the CDB built in the security-protocol branch when that
branch was taken. -/
structure IoctlOut where
  ret : Int
  dev : Sdev
  secuCdb : Option (List Nat)

/-- Embedding of scsi_ioctl.  The deprecation warning switch only logs and
is dropped.  The scsi_cmd array is memset to zero (MAX_COMMAND_SIZE bytes);
the security-protocol branch fills its first twelve bytes, reading t_len
from the user struct's inlen/outlen field by direction, and the carve-out
for SG_SCSI_RESET compares the first six bytes of the host template name
against "ufshcd".  Unrecognized codes go to the device-specific handler
when present and otherwise fall out of the switch to -EINVAL.  The call of
hostt->ioctl(sdev, SCSI_UFS_REQUEST_SENSE, NULL) on wlun_clr_uac in the
security branch is a side effect whose result the source discards. -/
def scsi_ioctl (sdev : Sdev) (cmd : Nat) (arg : UserArg) (ext : IoctlExt) :
    IoctlOut :=
  if cmd = SCSI_IOCTL_GET_IDLUN then
    if !ext.accessOk then { ret := -EFAULT, dev := sdev, secuCdb := none }
    else { ret := 0, dev := sdev, secuCdb := none }
  else if cmd = SCSI_IOCTL_GET_BUS_NUMBER then
    { ret := if ext.putUserOk then 0 else -EFAULT, dev := sdev, secuCdb := none }
  else if cmd = SCSI_IOCTL_PROBE_HOST then
    { ret := ext.probeResult, dev := sdev, secuCdb := none }
  else if cmd = SCSI_IOCTL_SEND_COMMAND then
    if !ext.capSysAdmin || !ext.capSysRawio then
      { ret := -EACCES, dev := sdev, secuCdb := none }
    else { ret := ext.sgIoResult, dev := sdev, secuCdb := none }
  else if cmd = SCSI_IOCTL_DOORLOCK then
    let r := scsi_set_medium_removal sdev SCSI_REMOVAL_PREVENT ext.exec
    { ret := r.ret, dev := r.dev, secuCdb := none }
  else if cmd = SCSI_IOCTL_DOORUNLOCK then
    let r := scsi_set_medium_removal sdev SCSI_REMOVAL_ALLOW ext.exec
    { ret := r.ret, dev := r.dev, secuCdb := none }
  else if cmd = SCSI_IOCTL_TEST_UNIT_READY then
    { ret := ext.testUnitReadyResult, dev := sdev, secuCdb := none }
  else if cmd = SCSI_IOCTL_START_UNIT then
    let r := ioctl_internal_command sdev START_STOP ext.exec
    { ret := r.2, dev := r.1, secuCdb := none }
  else if cmd = SCSI_IOCTL_STOP_UNIT then
    let r := ioctl_internal_command sdev START_STOP ext.exec
    { ret := r.2, dev := r.1, secuCdb := none }
  else if cmd = SCSI_IOCTL_SECURITY_PROTOCOL_IN ∨
          cmd = SCSI_IOCTL_SECURITY_PROTOCOL_OUT then
    let prot_spec := SECU_PROT_SPEC_CERT_DATA
    let t_len := if cmd = SCSI_IOCTL_SECURITY_PROTOCOL_IN then arg.inlen
                 else arg.outlen
    let scsi_cmd : List Nat :=
      [ if cmd = SCSI_IOCTL_SECURITY_PROTOCOL_IN then SECURITY_PROTOCOL_IN
        else SECURITY_PROTOCOL_OUT
      , SECU_PROT_UFS
      , (prot_spec >>> 8) % 256
      , prot_spec % 256
      , 0, 0
      , (t_len >>> 24) % 256
      , (t_len >>> 16) % 256
      , (t_len >>> 8) % 256
      , t_len % 256
      , 0, 0, 0, 0, 0, 0 ]
    let r := ioctl_secu_prot_command sdev scsi_cmd cmd arg ext.secu
    { ret := r.result, dev := sdev, secuCdb := some scsi_cmd }
  else if cmd = SCSI_IOCTL_GET_PCI then
    { ret := ext.getPciResult, dev := sdev, secuCdb := none }
  else if cmd = SG_SCSI_RESET then
    if strncmp sdev.host.shtName ufshcdName 6 = 0 then
      { ret := -EINVAL, dev := sdev, secuCdb := none }
    else
      { ret := ext.resetResult, dev := sdev, secuCdb := none }
  else
    match sdev.host.handler with
    | some h => { ret := h cmd, dev := sdev, secuCdb := none }
    | none => { ret := -EINVAL, dev := sdev, secuCdb := none }

/-- The fixed set of command codes the dispatcher recognizes (the case
labels of the main switch in scsi_ioctl). -/
def recognizedCmds : List Nat :=
  [ SCSI_IOCTL_GET_IDLUN, SCSI_IOCTL_GET_BUS_NUMBER, SCSI_IOCTL_PROBE_HOST
  , SCSI_IOCTL_SEND_COMMAND, SCSI_IOCTL_DOORLOCK, SCSI_IOCTL_DOORUNLOCK
  , SCSI_IOCTL_TEST_UNIT_READY, SCSI_IOCTL_START_UNIT, SCSI_IOCTL_STOP_UNIT
  , SCSI_IOCTL_SECURITY_PROTOCOL_IN, SCSI_IOCTL_SECURITY_PROTOCOL_OUT
  , SCSI_IOCTL_GET_PCI, SG_SCSI_RESET ]

/-! ## Error/recovery gate: scsi_ioctl_block_when_processing_errors -/

/-- Embedding of scsi_ioctl_block_when_processing_errors.  The two external
predicates are parameters: `hostInRecovery` is scsi_host_in_recovery(host)
and `blockOk` is the return of scsi_block_when_processing_errors(sdev),
true when the device came back usable and false when it is offline. -/
def scsi_ioctl_block_when_processing_errors (cmd : Nat) (ndelay : Bool)
    (hostInRecovery : Bool) (blockOk : Bool) : Int :=
  if decide (cmd = SG_SCSI_RESET) && ndelay then
    if hostInRecovery then -EAGAIN else 0
  else
    if !blockOk then -ENODEV else 0

/-! ## Shared concrete fixtures for witnesses and counterexamples -/

/-- A host with no device-specific handler and an empty template name. -/
def plainHost : HostState :=
  { host_no := 0, unique_id := 0, shtName := [], handler := none,
    wlun_clr_uac := false }

/-- A host whose template name is "ufshcd". -/
def ufshcdHost : HostState :=
  { plainHost with shtName := ufshcdName }

/-- A removable, lockable, unlocked, unchanged device. -/
def remDev : Sdev :=
  { id := 0, lun := 0, channel := 0, removable := true, lockable := true,
    locked := false, changed := false, host := plainHost }

/-- A non-removable device. -/
def fixedDev : Sdev :=
  { remDev with removable := false }

/-- An execution outcome whose result word 0x08000000 carries the
DRIVER_SENSE bit with valid NOT READY sense data. -/
def notReadyExec : ExecOutcome :=
  { result := 0x08000000, senseValid := true,
    sshdr := { sense_key := NOT_READY, asc := 0x04, ascq := 0x01 } }

/-- An execution outcome whose result word 0x08000000 carries the
DRIVER_SENSE bit with valid UNIT ATTENTION sense data. -/
def unitAttnExec : ExecOutcome :=
  { result := 0x08000000, senseValid := true,
    sshdr := { sense_key := UNIT_ATTENTION, asc := 0x28, ascq := 0x00 } }

/-- An execution outcome reporting plain success with no sense data. -/
def okExec : ExecOutcome :=
  { result := 0, senseValid := false,
    sshdr := { sense_key := 0, asc := 0, ascq := 0 } }

/-- An execution outcome reporting a transport failure (-5) with no sense
data. -/
def failExec : ExecOutcome :=
  { result := -5, senseValid := false,
    sshdr := { sense_key := 0, asc := 0, ascq := 0 } }

/-- Security-path externals in which every memory primitive succeeds, the
execution fails with `failExec`, and the device buffer holds byte i = i+1. -/
def secuExtFail : SecuExt :=
  { kmallocOk := true, argCopyOk := true, dataCopyInOk := true,
    dataCopyOutOk := true, exec := failExec, execBuf := fun i => (i + 1) % 256 }

/-- Dispatcher externals in which every primitive succeeds and every
external call returns 0 / success. -/
def ioctlExt0 : IoctlExt :=
  { accessOk := true, putUserOk := true, probeResult := 1,
    capSysAdmin := true, capSysRawio := true, sgIoResult := 0,
    testUnitReadyResult := 0, getPciResult := 0, resetResult := 0,
    exec := okExec, secu := { secuExtFail with exec := okExec } }

/-- A user argument with zero declared lengths. -/
def argZero : UserArg := { inlen := 0, outlen := 0, data := [] }

/-- A user argument declaring a 4-byte transfer in either direction. -/
def argFour : UserArg :=
  { inlen := 4, outlen := 4, data := [0xaa, 0xbb, 0xcc, 0xdd] }

/-! ## Helper lemmas -/

/-- ioctl_internal_command never touches the `locked` flag: sense
interpretation only ever clears `lockable` or sets `changed`. -/
theorem ioctl_internal_command_locked (sdev : Sdev) (cmd0 : Nat)
    (exec : ExecOutcome) :
    (ioctl_internal_command sdev cmd0 exec).1.locked = sdev.locked := by
  unfold ioctl_internal_command
  dsimp only
  split
  · split
    · split <;> rfl
    · split
      · rfl
      · split
        · split <;> rfl
        · rfl
  · rfl

/-! ## C2: locked flag updated exactly on confirmed success -/

/-- C2: for a medium-lock command on a removable, lockable device, if the
issued command returns 0 the `locked` flag becomes exactly the requested
state (true for SCSI_REMOVAL_PREVENT, false for SCSI_REMOVAL_ALLOW); on a
non-zero result `locked` is unchanged; hence `locked` can only end up true
through a successful prevent command or by having been true already. -/
theorem medium_removal_locked_update (sdev : Sdev) (state : Nat)
    (exec : ExecOutcome) (hrem : sdev.removable = true)
    (hlock : sdev.lockable = true) :
    ((scsi_set_medium_removal sdev state exec).ret = 0 →
      (scsi_set_medium_removal sdev state exec).dev.locked =
        decide (state = SCSI_REMOVAL_PREVENT)) ∧
    ((scsi_set_medium_removal sdev state exec).ret ≠ 0 →
      (scsi_set_medium_removal sdev state exec).dev.locked = sdev.locked) ∧
    ((scsi_set_medium_removal sdev state exec).dev.locked = true →
      ((scsi_set_medium_removal sdev state exec).ret = 0 ∧
        state = SCSI_REMOVAL_PREVENT) ∨ sdev.locked = true) := by
  have hl := ioctl_internal_command_locked sdev ALLOW_MEDIUM_REMOVAL exec
  unfold scsi_set_medium_removal
  rw [hrem, hlock]
  dsimp only
  split
  · next hfalse => exact absurd hfalse (by simp)
  · next _ =>
    split
    · next hz =>
      exact ⟨fun _ => rfl, fun hne => absurd hz hne,
        fun ht => Or.inl ⟨hz, of_decide_eq_true ht⟩⟩
    · next hz =>
      exact ⟨fun h0 => absurd h0 hz, fun _ => hl,
        fun ht => Or.inr (hl.symm.trans ht)⟩

/-- Witness for C2 at a concrete input: a successful prevent command on a
removable, lockable device leaves the device locked. -/
theorem medium_removal_locked_update_witness :
    (scsi_set_medium_removal remDev SCSI_REMOVAL_PREVENT okExec).ret = 0 ∧
    (scsi_set_medium_removal remDev SCSI_REMOVAL_PREVENT okExec).dev.locked =
      true := by
  have h := medium_removal_locked_update remDev SCSI_REMOVAL_PREVENT okExec
    rfl rfl
  exact ⟨rfl, h.1 rfl⟩

/-! ## C8: early success on non-removable or non-lockable devices -/

/-- C8: a medium-lock call on a device that is not removable or not
lockable returns 0 immediately, builds and issues no CDB, and leaves the
device (all its flags) unchanged. -/
theorem medium_removal_noop_nonremovable (sdev : Sdev) (state : Nat)
    (exec : ExecOutcome)
    (h : sdev.removable = false ∨ sdev.lockable = false) :
    (scsi_set_medium_removal sdev state exec).ret = 0 ∧
    (scsi_set_medium_removal sdev state exec).issued = none ∧
    (scsi_set_medium_removal sdev state exec).dev = sdev := by
  unfold scsi_set_medium_removal
  rcases h with h | h <;> rw [h] <;> simp

/-- Witness for C8 at a concrete input: a prevent command on a
non-removable device is a no-op with result 0. -/
theorem medium_removal_noop_nonremovable_witness :
    (scsi_set_medium_removal fixedDev SCSI_REMOVAL_PREVENT notReadyExec).ret
      = 0 ∧
    (scsi_set_medium_removal fixedDev SCSI_REMOVAL_PREVENT
      notReadyExec).issued = none := by
  have h := medium_removal_noop_nonremovable fixedDev SCSI_REMOVAL_PREVENT
    notReadyExec (Or.inl rfl)
  exact ⟨h.1, h.2.1⟩

/-! ## C3: NOT READY sense handling -/

/-- C3 counterexample: an internally executed command on a removable device
whose sense data is valid with key NOT READY does not return success — the
original result word 0x08000000 is returned unchanged, refuting the claim
that the error is downgraded to 0 for removable devices. -/
theorem not_ready_removable_not_downgraded :
    (ioctl_internal_command remDev ALLOW_MEDIUM_REMOVAL notReadyExec).2 =
      0x08000000 ∧
    (ioctl_internal_command remDev ALLOW_MEDIUM_REMOVAL notReadyExec).2 ≠ 0 := by
  exact ⟨rfl, by decide⟩

/-- C3 as amended: for a NOT READY sense key with present, valid sense
data, the original result is preserved unchanged and the device flags are
untouched, whether the device is removable or not (the removable test only
decides whether a diagnostic is logged); the error is never downgraded to
success. -/
theorem not_ready_result_preserved (sdev : Sdev) (cmd0 : Nat)
    (exec : ExecOutcome) (hs : senseShown exec = true)
    (hk : exec.sshdr.sense_key = NOT_READY) :
    (ioctl_internal_command sdev cmd0 exec).2 = exec.result ∧
    (ioctl_internal_command sdev cmd0 exec).1 = sdev := by
  unfold ioctl_internal_command
  rw [hs, hk]
  simp [NOT_READY, ILLEGAL_REQUEST]

/-- Witness for C3 (amended) at a concrete input: on a non-removable device
the NOT READY outcome keeps its original result word. -/
theorem not_ready_result_preserved_witness :
    (ioctl_internal_command fixedDev ALLOW_MEDIUM_REMOVAL notReadyExec).2 =
      0x08000000 := by
  have h := not_ready_result_preserved fixedDev ALLOW_MEDIUM_REMOVAL
    notReadyExec (by decide) rfl
  exact h.1

/-! ## C4: UNIT ATTENTION sense handling -/

/-- C4: for a UNIT ATTENTION sense key with present, valid sense data, a
removable device gets `changed` set to true and the result overridden to 0
whatever the original result was, while a non-removable device falls
through to default handling with result and device unchanged. -/
theorem unit_attention_removable_changed (sdev : Sdev) (cmd0 : Nat)
    (exec : ExecOutcome) (hs : senseShown exec = true)
    (hk : exec.sshdr.sense_key = UNIT_ATTENTION) :
    (sdev.removable = true →
      (ioctl_internal_command sdev cmd0 exec).2 = 0 ∧
      (ioctl_internal_command sdev cmd0 exec).1.changed = true) ∧
    (sdev.removable = false →
      (ioctl_internal_command sdev cmd0 exec).2 = exec.result ∧
      (ioctl_internal_command sdev cmd0 exec).1 = sdev) := by
  unfold ioctl_internal_command
  rw [hs, hk]
  constructor
  · intro hrem
    rw [hrem]
    simp [UNIT_ATTENTION, ILLEGAL_REQUEST, NOT_READY]
  · intro hrem
    rw [hrem]
    simp [UNIT_ATTENTION, ILLEGAL_REQUEST, NOT_READY]

/-- Witness for C4 at a concrete input: a removable device with UNIT
ATTENTION sense and original result word 0x08000000 ends changed with
result 0. -/
theorem unit_attention_removable_changed_witness :
    (ioctl_internal_command remDev ALLOW_MEDIUM_REMOVAL unitAttnExec).2 = 0 ∧
    (ioctl_internal_command remDev ALLOW_MEDIUM_REMOVAL
      unitAttnExec).1.changed = true := by
  have h := unit_attention_removable_changed remDev ALLOW_MEDIUM_REMOVAL
    unitAttnExec (by decide) rfl
  exact h.1 rfl

/-! ## C1: length validation of security-protocol transfers -/

/-- C1 counterexample: a security-protocol-in request with declared length
0 fails with -EFAULT (BadAddress), not with -EINVAL (InvalidArgument) as
the claim states; no data buffer is allocated. -/
theorem secu_prot_zero_len_not_einval :
    (ioctl_secu_prot_command remDev (List.replicate MAX_COMMAND_SIZE 0)
      SCSI_IOCTL_SECURITY_PROTOCOL_IN argZero secuExtFail).result ≠ -EINVAL ∧
    (ioctl_secu_prot_command remDev (List.replicate MAX_COMMAND_SIZE 0)
      SCSI_IOCTL_SECURITY_PROTOCOL_IN argZero secuExtFail).result = -EFAULT ∧
    (ioctl_secu_prot_command remDev (List.replicate MAX_COMMAND_SIZE 0)
      SCSI_IOCTL_SECURITY_PROTOCOL_IN argZero secuExtFail).alloc = none := by
  exact ⟨by decide, rfl, rfl⟩

/-- C1 as amended: once the header has been marshalled in, a declared
length L with 0 < L ≤ MAX_BUFFLEN passes validation and the transfer is
executed with exactly L bytes in the declared DMA direction (for the out
direction, provided the payload copy-in succeeded); L = 0 or
L > MAX_BUFFLEN fails with -EFAULT — BadAddress, not InvalidArgument — and
no data buffer is allocated and nothing is executed. -/
theorem secu_prot_length_validation (sdev : Sdev) (cmd : List Nat)
    (arg : UserArg) (ext : SecuExt) (hk : ext.kmallocOk = true)
    (hc : ext.argCopyOk = true) :
    ((0 < arg.inlen ∧ arg.inlen ≤ MAX_BUFFLEN) →
      (ioctl_secu_prot_command sdev cmd SCSI_IOCTL_SECURITY_PROTOCOL_IN arg
        ext).executed = some (cmd, DMA_FROM_DEVICE, arg.inlen)) ∧
    ((arg.inlen = 0 ∨ arg.inlen > MAX_BUFFLEN) →
      (ioctl_secu_prot_command sdev cmd SCSI_IOCTL_SECURITY_PROTOCOL_IN arg
        ext).result = -EFAULT ∧
      (ioctl_secu_prot_command sdev cmd SCSI_IOCTL_SECURITY_PROTOCOL_IN arg
        ext).alloc = none ∧
      (ioctl_secu_prot_command sdev cmd SCSI_IOCTL_SECURITY_PROTOCOL_IN arg
        ext).executed = none) ∧
    ((0 < arg.outlen ∧ arg.outlen ≤ MAX_BUFFLEN ∧ ext.dataCopyInOk = true) →
      (ioctl_secu_prot_command sdev cmd SCSI_IOCTL_SECURITY_PROTOCOL_OUT arg
        ext).executed = some (cmd, DMA_TO_DEVICE, arg.outlen)) ∧
    ((arg.outlen = 0 ∨ arg.outlen > MAX_BUFFLEN) →
      (ioctl_secu_prot_command sdev cmd SCSI_IOCTL_SECURITY_PROTOCOL_OUT arg
        ext).result = -EFAULT ∧
      (ioctl_secu_prot_command sdev cmd SCSI_IOCTL_SECURITY_PROTOCOL_OUT arg
        ext).alloc = none ∧
      (ioctl_secu_prot_command sdev cmd SCSI_IOCTL_SECURITY_PROTOCOL_OUT arg
        ext).executed = none) := by
  unfold ioctl_secu_prot_command
  rw [hk, hc]
  refine ⟨fun hin => ?_, fun hin => ?_, fun hout => ?_, fun hout => ?_⟩
  · have hcond : (arg.inlen = 0 || arg.inlen > MAX_BUFFLEN) = false := by
      simp only [Bool.or_eq_false_iff, decide_eq_false_iff_not]
      exact ⟨Nat.pos_iff_ne_zero.mp hin.1, not_lt.mpr hin.2⟩
    simp [hcond]
    split <;> rfl
  · have hcond : (arg.inlen = 0 || arg.inlen > MAX_BUFFLEN) = true := by
      rcases hin with h | h <;> simp [h]
    simp [hcond]
  · have h78 : SCSI_IOCTL_SECURITY_PROTOCOL_OUT ≠
        SCSI_IOCTL_SECURITY_PROTOCOL_IN := by decide
    have hcond : (arg.outlen = 0 || arg.outlen > MAX_BUFFLEN) = false := by
      simp only [Bool.or_eq_false_iff, decide_eq_false_iff_not]
      exact ⟨Nat.pos_iff_ne_zero.mp hout.1, not_lt.mpr hout.2.1⟩
    simp [h78, hcond, hout.2.2]
  · have h78 : SCSI_IOCTL_SECURITY_PROTOCOL_OUT ≠
        SCSI_IOCTL_SECURITY_PROTOCOL_IN := by decide
    have hcond : (arg.outlen = 0 || arg.outlen > MAX_BUFFLEN) = true := by
      rcases hout with h | h <;> simp [h]
    simp [h78, hcond]

/-- Witness for C1 (amended) at a concrete input: a 4-byte in-transfer
passes validation and is executed with 4 bytes device-to-host, and the
zero-length out-transfer fails with -EFAULT and no allocation. -/
theorem secu_prot_length_validation_witness :
    (ioctl_secu_prot_command remDev (List.replicate MAX_COMMAND_SIZE 0)
      SCSI_IOCTL_SECURITY_PROTOCOL_IN argFour secuExtFail).executed =
      some (List.replicate MAX_COMMAND_SIZE 0, DMA_FROM_DEVICE, 4) ∧
    (ioctl_secu_prot_command remDev (List.replicate MAX_COMMAND_SIZE 0)
      SCSI_IOCTL_SECURITY_PROTOCOL_OUT argZero secuExtFail).result =
      -EFAULT := by
  have h := secu_prot_length_validation remDev
    (List.replicate MAX_COMMAND_SIZE 0) argFour secuExtFail rfl rfl
  have h0 := secu_prot_length_validation remDev
    (List.replicate MAX_COMMAND_SIZE 0) argZero secuExtFail rfl rfl
  exact ⟨h.1 ⟨by decide, by decide⟩, (h0.2.2.2 (Or.inl rfl)).1⟩

/-! ## C10: unconditional copy-out on the in direction -/

/-- C10: a security-protocol-in transfer that passed length validation
copies the kernel buffer — exactly inlen bytes of what the device left
there — back to the user data region after execution with no condition on
the execution result, which is returned unchanged: the theorem places no
hypothesis at all on ext.exec.result, so the copy-out happens even for a
failing result. -/
theorem secu_prot_in_unconditional_copyout (sdev : Sdev) (cmd : List Nat)
    (arg : UserArg) (ext : SecuExt) (h1 : 0 < arg.inlen)
    (h2 : arg.inlen ≤ MAX_BUFFLEN) (hk : ext.kmallocOk = true)
    (hc : ext.argCopyOk = true) (ho : ext.dataCopyOutOk = true) :
    (ioctl_secu_prot_command sdev cmd SCSI_IOCTL_SECURITY_PROTOCOL_IN arg
      ext).userOut = some ((List.range arg.inlen).map ext.execBuf) ∧
    (ioctl_secu_prot_command sdev cmd SCSI_IOCTL_SECURITY_PROTOCOL_IN arg
      ext).result = ext.exec.result := by
  unfold ioctl_secu_prot_command
  rw [hk, hc, ho]
  have hcond : (arg.inlen = 0 || arg.inlen > MAX_BUFFLEN) = false := by
    simp only [Bool.or_eq_false_iff, decide_eq_false_iff_not]
    exact ⟨Nat.pos_iff_ne_zero.mp h1, not_lt.mpr h2⟩
  have htake : ((List.range arg.inlen).map ext.execBuf).take arg.inlen =
      (List.range arg.inlen).map ext.execBuf := by
    apply List.take_of_length_le
    simp
  simp [hcond, htake]

/-- Witness for C10 at a concrete input: with the execution primitive
failing with result -5, the 4 bytes the device left in the kernel buffer
are still copied out to the caller and -5 is returned. -/
theorem secu_prot_in_unconditional_copyout_witness :
    (ioctl_secu_prot_command remDev (List.replicate MAX_COMMAND_SIZE 0)
      SCSI_IOCTL_SECURITY_PROTOCOL_IN argFour secuExtFail).userOut =
      some [1, 2, 3, 4] ∧
    (ioctl_secu_prot_command remDev (List.replicate MAX_COMMAND_SIZE 0)
      SCSI_IOCTL_SECURITY_PROTOCOL_IN argFour secuExtFail).result = -5 := by
  have h := secu_prot_in_unconditional_copyout remDev
    (List.replicate MAX_COMMAND_SIZE 0) argFour secuExtFail
    (by decide) (by decide) rfl rfl rfl
  exact ⟨h.1.trans (by decide), h.2.trans rfl⟩

/-! ## C5: SG_SCSI_RESET carve-out for the ufshcd driver -/

/-- A removable device attached to a host whose template name is "ufshcd". -/
def ufshcdDev : Sdev := { remDev with host := ufshcdHost }

/-- C5: a raw-reset dispatch on a device whose host template name matches
"ufshcd" (the source compares the first six bytes with strncmp) returns
-EINVAL whatever the externals — in particular independently of any
recovery state, which scsi_ioctl never consults; with any other name the
request is forwarded to scsi_ioctl_reset and its result returned. -/
theorem sg_reset_ufshcd_rejected (sdev : Sdev) (arg : UserArg)
    (ext : IoctlExt) :
    (strncmp sdev.host.shtName ufshcdName 6 = 0 →
      (scsi_ioctl sdev SG_SCSI_RESET arg ext).ret = -EINVAL) ∧
    (strncmp sdev.host.shtName ufshcdName 6 ≠ 0 →
      (scsi_ioctl sdev SG_SCSI_RESET arg ext).ret = ext.resetResult) := by
  constructor <;> intro h <;>
    simp [scsi_ioctl, h, SCSI_IOCTL_GET_IDLUN, SCSI_IOCTL_GET_BUS_NUMBER,
      SCSI_IOCTL_PROBE_HOST, SCSI_IOCTL_SEND_COMMAND, SCSI_IOCTL_DOORLOCK,
      SCSI_IOCTL_DOORUNLOCK, SCSI_IOCTL_TEST_UNIT_READY,
      SCSI_IOCTL_START_UNIT, SCSI_IOCTL_STOP_UNIT,
      SCSI_IOCTL_SECURITY_PROTOCOL_IN, SCSI_IOCTL_SECURITY_PROTOCOL_OUT,
      SCSI_IOCTL_GET_PCI, SG_SCSI_RESET]

/-- Witness for C5 at a concrete input: the reset request on a device named
"ufshcd" is rejected with -EINVAL. -/
theorem sg_reset_ufshcd_rejected_witness :
    (scsi_ioctl ufshcdDev SG_SCSI_RESET argZero ioctlExt0).ret = -EINVAL := by
  exact (sg_reset_ufshcd_rejected ufshcdDev argZero ioctlExt0).1 (by decide)

/-! ## C6: dispatch of unrecognized command codes -/

/-- C6 counterexample: with no device-specific handler registered, an
unrecognized code (22222) fails with -EINVAL — the very code the error
taxonomy names InvalidArgument and that the dispatcher also returns for the
recognized SG_SCSI_RESET carve-out — so no distinct NotSupported error is
reserved for the unrecognized-code case. -/
theorem unrecognized_no_handler_einval :
    (scsi_ioctl remDev 22222 argZero ioctlExt0).ret = -EINVAL ∧
    (scsi_ioctl ufshcdDev SG_SCSI_RESET argZero ioctlExt0).ret = -EINVAL := by
  exact ⟨by decide, by decide⟩

/-- C6 as amended: a command code outside the recognized fixed set goes to
the device-specific handler when one is registered, returning its result;
with no handler the dispatch fails with -EINVAL (the InvalidArgument code,
not a distinct NotSupported value). -/
theorem unrecognized_dispatch (sdev : Sdev) (cmd : Nat) (arg : UserArg)
    (ext : IoctlExt) (h : cmd ∉ recognizedCmds) :
    (∀ hdl, sdev.host.handler = some hdl →
      (scsi_ioctl sdev cmd arg ext).ret = hdl cmd) ∧
    (sdev.host.handler = none →
      (scsi_ioctl sdev cmd arg ext).ret = -EINVAL) := by
  simp only [recognizedCmds, List.mem_cons, List.not_mem_nil, or_false,
    not_or] at h
  obtain ⟨h1, h2, h3, h4, h5, h6, h7, h8, h9, h10, h11, h12, h13⟩ := h
  unfold scsi_ioctl
  rw [if_neg h1, if_neg h2, if_neg h3, if_neg h4, if_neg h5, if_neg h6,
    if_neg h7, if_neg h8, if_neg h9, if_neg (not_or.mpr ⟨h10, h11⟩),
    if_neg h12, if_neg h13]
  constructor
  · intro hdl hh
    rw [hh]
  · intro hh
    rw [hh]

/-- Witness for C6 (amended) at a concrete input: code 22222 with a handler
that returns -99 yields -99; without a handler it yields -EINVAL. -/
theorem unrecognized_dispatch_witness :
    (scsi_ioctl { remDev with
        host := { plainHost with handler := some fun _ => -99 } }
      22222 argZero ioctlExt0).ret = -99 ∧
    (scsi_ioctl remDev 22222 argZero ioctlExt0).ret = -EINVAL := by
  have hmem : (22222 : Nat) ∉ recognizedCmds := by decide
  have ha := unrecognized_dispatch { remDev with
      host := { plainHost with handler := some fun _ => -99 } }
    22222 argZero ioctlExt0 hmem
  have hb := unrecognized_dispatch remDev 22222 argZero ioctlExt0 hmem
  exact ⟨ha.1 (fun _ => -99) rfl, hb.2 rfl⟩

/-! ## C7: layout of the security-protocol CDB -/

/-- Spec-side description of the security-protocol CDB, written the way the
specification states it: byte 0 the direction-specific opcode, byte 1 the
protocol id, bytes 2-3 the 16-bit protocol-specific value big-endian,
bytes 4-5 zero, bytes 6-9 the low 32 bits of the transfer length
big-endian, bytes 10-11 zero (bytes 12-15 are the zero tail of the
16-byte command array).  Compared below with the CDB the dispatcher
actually builds. -/
def secuCdbSpec (opcode t_len : Nat) : List Nat :=
  [ opcode
  , SECU_PROT_UFS
  , SECU_PROT_SPEC_CERT_DATA / 2 ^ 8 % 2 ^ 8
  , SECU_PROT_SPEC_CERT_DATA % 2 ^ 8
  , 0, 0
  , t_len % 2 ^ 32 / 2 ^ 24
  , t_len % 2 ^ 32 / 2 ^ 16 % 2 ^ 8
  , t_len % 2 ^ 32 / 2 ^ 8 % 2 ^ 8
  , t_len % 2 ^ 32 % 2 ^ 8
  , 0, 0, 0, 0, 0, 0 ]

/-- C7: for both security-protocol dispatches the CDB built before
execution is exactly the layout the specification prescribes, with the
transfer length taken from inlen for the in command and outlen otherwise. -/
theorem secu_prot_cdb_layout (sdev : Sdev) (arg : UserArg) (ext : IoctlExt) :
    (scsi_ioctl sdev SCSI_IOCTL_SECURITY_PROTOCOL_IN arg ext).secuCdb =
      some (secuCdbSpec SECURITY_PROTOCOL_IN arg.inlen) ∧
    (scsi_ioctl sdev SCSI_IOCTL_SECURITY_PROTOCOL_OUT arg ext).secuCdb =
      some (secuCdbSpec SECURITY_PROTOCOL_OUT arg.outlen) := by
  constructor <;>
    simp [scsi_ioctl, secuCdbSpec, SCSI_IOCTL_GET_IDLUN,
      SCSI_IOCTL_GET_BUS_NUMBER, SCSI_IOCTL_PROBE_HOST,
      SCSI_IOCTL_SEND_COMMAND, SCSI_IOCTL_DOORLOCK, SCSI_IOCTL_DOORUNLOCK,
      SCSI_IOCTL_TEST_UNIT_READY, SCSI_IOCTL_START_UNIT,
      SCSI_IOCTL_STOP_UNIT, SCSI_IOCTL_SECURITY_PROTOCOL_IN,
      SCSI_IOCTL_SECURITY_PROTOCOL_OUT, SECU_PROT_SPEC_CERT_DATA,
      Nat.shiftRight_eq_div_pow] <;>
    omega

/-! ## C9: the error/recovery gate -/

/-- C9: the gate returns -EAGAIN exactly for a raw reset issued in
non-blocking mode while host recovery is in progress; every call outside
the raw-reset-with-ndelay case returns -ENODEV when
scsi_block_when_processing_errors reported the device unusable; in all
remaining cases the gate returns 0 and the dispatch may proceed. -/
theorem recovery_gate_spec (cmd : Nat) (ndelay hostInRecovery blockOk : Bool) :
    ((cmd = SG_SCSI_RESET ∧ ndelay = true ∧ hostInRecovery = true) →
      scsi_ioctl_block_when_processing_errors cmd ndelay hostInRecovery
        blockOk = -EAGAIN) ∧
    (¬(cmd = SG_SCSI_RESET ∧ ndelay = true) → blockOk = false →
      scsi_ioctl_block_when_processing_errors cmd ndelay hostInRecovery
        blockOk = -ENODEV) ∧
    (((cmd = SG_SCSI_RESET ∧ ndelay = true ∧ hostInRecovery = false) ∨
      (¬(cmd = SG_SCSI_RESET ∧ ndelay = true) ∧ blockOk = true)) →
      scsi_ioctl_block_when_processing_errors cmd ndelay hostInRecovery
        blockOk = 0) := by
  unfold scsi_ioctl_block_when_processing_errors
  refine ⟨?_, ?_, ?_⟩
  · rintro ⟨h1, h2, h3⟩
    simp [h1, h2, h3]
  · intro h hu
    by_cases hc : cmd = SG_SCSI_RESET
    · have hnd : ndelay = false := by
        cases ndelay
        · rfl
        · exact absurd ⟨hc, rfl⟩ h
      simp [hc, hnd, hu]
    · simp [hc, hu]
  · rintro (⟨h1, h2, h3⟩ | ⟨h, hu⟩)
    · simp [h1, h2, h3]
    · by_cases hc : cmd = SG_SCSI_RESET
      · have hnd : ndelay = false := by
          cases ndelay
          · rfl
          · exact absurd ⟨hc, rfl⟩ h
        simp [hc, hnd, hu]
      · simp [hc, hu]

/-- Witness for C9 at concrete inputs: a non-blocking raw reset during
recovery gets -EAGAIN, and an ordinary command on an unusable device gets
-ENODEV. -/
theorem recovery_gate_spec_witness :
    scsi_ioctl_block_when_processing_errors SG_SCSI_RESET true true true =
      -EAGAIN ∧
    scsi_ioctl_block_when_processing_errors SCSI_IOCTL_TEST_UNIT_READY false
      true false = -ENODEV := by
  refine ⟨(recovery_gate_spec SG_SCSI_RESET true true true).1
    ⟨rfl, rfl, rfl⟩, ?_⟩
  exact (recovery_gate_spec SCSI_IOCTL_TEST_UNIT_READY false true false).2.1
    (by simp [SCSI_IOCTL_TEST_UNIT_READY, SG_SCSI_RESET]) rfl
